import Mathlib

/-!
Shallow embedding of the linkbot repository (src/linkbot.py and
src/linkbot/clients.py).

Python mutable objects are modelled by explicit state passing: each method of
a bot takes a `BotState` value and returns the updated one together with either a
result or the Python exception it raises (`PyErr`).  External collaborators
(the Jira client's network lookup, the ServiceNow HTTP GET, `random.choice`,
and the Slack transport) are parameters gathered in `Env`; everything else is
translated from the source.
-/

/-- Python exceptions that the embedded code can raise:
`LinkBotSeenException(label)`, `KeyError`, `TypeError` (from `%` formatting
with a mismatched number of placeholders), and a generic `Exception(msg)`. -/
inductive PyErr where
  | linkBotSeen (label : String)
  | keyError
  | typeError
  | exception (msg : String)
deriving DecidableEq, Repr

deriving instance DecidableEq for Except

/-! ### The matcher: `re.findall(r'(\A|\W)(MATCH)(\W|\Z)', text, flags=re.I)`

The configured `MATCH` string is modelled as a literal pattern (the
configurations exercised by the specification, such as `"ABC-123"` or
`"INC0012345"`, contain no regex metacharacters).  `\w` is modelled for ASCII
text as alphanumeric-or-underscore; `re.I` makes the literal comparison
case-insensitive and does not change `\W`. -/

/-- Python regex word character (ASCII fragment of `\w`). -/
def isWordChar (c : Char) : Bool := c.isAlphanum || c = '_'

/-- Case-insensitive character comparison, as `re.I` performs on literals. -/
def ciCharEq (a b : Char) : Bool := a.toLower == b.toLower

/-- Case-insensitive list comparison; used to state that a returned label is
the pattern matched case-insensitively. -/
def ciListEq : List Char → List Char → Bool
  | [], [] => true
  | a :: as, b :: bs => ciCharEq a b && ciListEq as bs
  | _, _ => false

/-- Match the literal pattern `ps` case-insensitively at the head of `cs`;
return the consumed text characters (the capture of group 2) and the rest. -/
def matchLit : (ps cs : List Char) → Option (List Char × List Char)
  | [], cs => some ([], cs)
  | _ :: _, [] => none
  | p :: ps, c :: cs =>
    if ciCharEq p c then
      (matchLit ps cs).map (fun r => (c :: r.1, r.2))
    else none

/-- Match `(\W|\Z)` at `cs`: a non-word character is consumed into group 3,
or the end of the text matches with an empty group 3. -/
def matchTail : List Char → Option (List Char × List Char)
  | [] => some ([], [])
  | c :: cs => if isWordChar c then none else some ([c], cs)

/-- Match `(MATCH)(\W|\Z)` at `cs`: returns (group 2, group 3, rest). -/
def tryCore (pat cs : List Char) : Option (List Char × List Char × List Char) :=
  match matchLit pat cs with
  | none => none
  | some (lab, r1) =>
    match matchTail r1 with
    | none => none
    | some (post, rest) => some (lab, post, rest)

/-- The `\W`-prefix alternative of the regex `(\A|\W)(MATCH)(\W|\Z)`: consume
one non-word character into group 1, then the rest of the regex.  Returns
((group 1, group 2, group 3), rest). -/
def tryMatchW (pat cs : List Char) :
    Option ((List Char × List Char × List Char) × List Char) :=
  match cs with
  | [] => none
  | c :: cs' =>
    if isWordChar c then none
    else (tryCore pat cs').map (fun r => (([c], r.1, r.2.1), r.2.2))

/-- Attempt the whole regex at the current position: the `\A` alternative
applies only at the start of the text and is tried first, backtracking to the
`\W` alternative if the rest of the regex fails after it. -/
def tryMatchAt (pat : List Char) (atStart : Bool) (cs : List Char) :
    Option ((List Char × List Char × List Char) × List Char) :=
  if atStart then
    match tryCore pat cs with
    | some (lab, post, rest) => some (([], lab, post), rest)
    | none => tryMatchW pat cs
  else tryMatchW pat cs

/-- The scanning loop of `re.findall`: try the regex at each position from
left to right; on a match record the groups and resume after the match
(matches do not overlap).  `fuel` bounds the recursion; `reFindall` supplies
more fuel than there are positions, so it is never exhausted. -/
def scanAux (pat : List Char) (fuel : Nat) (atStart : Bool) (cs : List Char) :
    List (String × String × String) :=
  match fuel with
  | 0 => []
  | fuel + 1 =>
    match tryMatchAt pat atStart cs with
    | some (g, rest) =>
      if rest.length < cs.length then
        (String.mk g.1, String.mk g.2.1, String.mk g.2.2) :: scanAux pat fuel false rest
      else [(String.mk g.1, String.mk g.2.1, String.mk g.2.2)]
    | none =>
      match cs with
      | [] => []
      | _ :: cs' => scanAux pat fuel false cs'

/-- Model of `re.findall(r'(\A|\W)(%s)(\W|\Z)' % pattern, text, flags=re.I)`:
the list of group triples (group 1, label, group 3). -/
def reFindall (pat text : String) : List (String × String × String) :=
  scanAux pat.toList (text.toList.length + 1) true text.toList

/-! ### Python `%` string formatting (`template % args`) -/

/-- Number of `%s` placeholders in a template (templates in this program
contain no `%%` escapes). -/
def percentPlaceholders : List Char → Nat
  | '%' :: 's' :: rest => 1 + percentPlaceholders rest
  | _ :: rest => percentPlaceholders rest
  | [] => 0

/-- Substitute arguments for `%s` placeholders, left to right. -/
def pySubst : List Char → List String → List Char
  | '%' :: 's' :: rest, a :: args => a.toList ++ pySubst rest args
  | c :: rest, args => c :: pySubst rest args
  | [], _ => []

/-- Model of Python `template % args` (for a tuple of string arguments):
raises `TypeError` when the number of `%s` placeholders differs from the
number of arguments, otherwise substitutes them in order. -/
def pyFormat (t : String) (args : List String) : Except PyErr String :=
  if percentPlaceholders t.toList = args.length then
    .ok (String.mk (pySubst t.toList args))
  else .error .typeError

/-! ### Bot state -/

/-- Which of the three bot classes a configured bot instantiates
(`LinkBot`, `JiraLinkBot`, `ServiceNowBot`). -/
inductive BotKind where
  | generic
  | jira
  | serviceNow
deriving DecidableEq, Repr

/-- The mutable state and configuration of one bot instance.

`aliased` models a Python object-identity fact: after `_quip` executes
`self._quiplist = self._quips`, the two attributes reference the same list
object, so `self._quiplist.remove(quip)` also mutates `self._quips`.  It is
`false` only before the first draw, while `_quiplist` is still the fresh `[]`
created in `__init__`. -/
structure BotState where
  kind : BotKind
  matchPat : String
  link : String
  quips : List String
  quiplist : List String
  aliased : Bool
  seen : List String
  host : String
deriving DecidableEq, Repr

namespace LinkBot

/-- Model of `LinkBot.match`: `re.findall` with the configured pattern. -/
def matchText (b : BotState) (text : String) : List (String × String × String) :=
  reFindall b.matchPat text

/-- Model of `LinkBot._quip`.  Mirrors:
try: if the pool is empty, assign `_quiplist = _quips` (aliasing both names
to one list); `choice` an element (the `pick` parameter models the random
index); `remove` it (mutating the shared list when aliased); return
`quip % link`.  `except IndexError` (the empty-pool `choice`) returns the
bare link; a `TypeError` from `quip % link` is not caught and propagates
after the removal has already happened. -/
def quip (pick : List String → Nat) (b : BotState) (link : String) :
    Except PyErr String × BotState :=
  let ql := if b.quiplist.isEmpty then b.quips else b.quiplist
  let al := if b.quiplist.isEmpty then true else b.aliased
  match ql with
  | [] => (.ok link, { b with quiplist := ql, aliased := al })
  | q0 :: qs =>
    let l := q0 :: qs
    let q := l.get ⟨pick l % l.length, Nat.mod_lt _ (Nat.succ_pos qs.length)⟩
    let ql' := l.erase q
    let b' := { b with quiplist := ql', aliased := al,
                       quips := if al then ql' else b.quips }
    (pyFormat q [link], b')

/-- Model of `LinkBot._message_text`: just `_quip`. -/
def message_text (pick : List String → Nat) (b : BotState) (link : String) :
    Except PyErr String × BotState :=
  quip pick b link

/-- Model of `LinkBot.message`: raise `LinkBotSeenException` when the label
was already seen this cycle; otherwise append it to `seen`, build
`_link % (link_label, link_label)` and pass it through `_message_text`. -/
def message (pick : List String → Nat) (b : BotState) (label : String) :
    Except PyErr String × BotState :=
  if label ∈ b.seen then (.error (.linkBotSeen label), b)
  else
    let b1 := { b with seen := b.seen ++ [label] }
    match pyFormat b.link [label, label] with
    | .error e => (.error e, b1)
    | .ok link => message_text pick b1 link

/-- Model of `LinkBot.reset`: `self._seen = []`. -/
def reset (b : BotState) : BotState := { b with seen := [] }

/-- Replacement for a single character in `LinkBot._escape_html`'s
dictionary lookup `escaped.get(c, c)`. -/
def escapeChar (c : Char) : String :=
  if c = '&' then "&amp;"
  else if c = '<' then "&lt;"
  else if c = '>' then "&gt;"
  else String.singleton c

/-- Model of `LinkBot._escape_html`: `"".join(escaped.get(c, c) for c in text)`. -/
def escape_html (text : String) : String :=
  String.join (text.toList.map escapeChar)

end LinkBot

/-! ### JiraLinkBot (issue-tracker variant) -/

/-- A Jira person object; `displayName` is its display name attribute
(the empty string models a falsy value). -/
structure JiraPerson where
  displayName : String
deriving DecidableEq, Repr

/-- The fields of a Jira issue that `JiraLinkBot.message` reads:
`fields.summary`, `fields.reporter`, `fields.assignee`, `fields.status.name`.
`none` models a `None` reporter or assignee. -/
structure JiraIssue where
  summary : String
  reporter : Option JiraPerson
  assignee : Option JiraPerson
  statusName : String
deriving DecidableEq, Repr

/-- Model of `get_name = lambda person: person and person.displayName or 'None'`:
a falsy person, or a falsy display name, yields the string `"None"`. -/
def get_name (p : Option JiraPerson) : String :=
  match p with
  | none => "None"
  | some q => if q.displayName = "" then "None" else q.displayName

namespace JiraLinkBot

/-- Model of `JiraLinkBot.message`: `super().message(link_label)` (whose
exceptions propagate, since the `try` only wraps the lookup), then a Jira
lookup; on success append the escaped summary/reporter/assignee/status lines
joined by `'\n> '`; `except Exception` swallows any lookup failure and
returns the base message. -/
def message (pick : List String → Nat) (jiraLookup : String → Except Unit JiraIssue)
    (b : BotState) (label : String) : Except PyErr String × BotState :=
  match LinkBot.message pick b label with
  | (.error e, b') => (.error e, b')
  | (.ok msg, b') =>
    match jiraLookup label with
    | .error _ => (.ok msg, b')
    | .ok issue =>
      let reporter := "*Reporter* " ++ get_name issue.reporter
      let assignee := "*Assignee* " ++ get_name issue.assignee
      let status := "*Status* " ++ issue.statusName
      let lines := [issue.summary, reporter, assignee, status].map LinkBot.escape_html
      (.ok (String.intercalate "\n> " (msg :: lines)), b')

end JiraLinkBot

/-! ### ServiceNowBot (ticketing-system variant) and its client

`ServiceNowClient.get` performs an HTTP request and is modelled as the
environment parameter `snGet`; `ServiceNowClient.link` and
`_table_from_number` are pure and translated from src/linkbot/clients.py. -/

/-- A ServiceNow record restricted to `ServiceNowRecord.fields`, with display
values already extracted as strings; the empty string models a falsy value
(`None` or `''`). -/
structure ServiceNowRecord where
  short_description : String
  number : String
  parent : String
  state : String
  assigned_to : String
  opened_by : String
  sys_updated_on : String
deriving DecidableEq, Repr

/-- Model of `ServiceNowRecord.items(pretty_names=True)`: the (pretty name,
display value) pairs in the order of the `fields` dictionary literal. -/
def ServiceNowRecord.items (r : ServiceNowRecord) : List (String × String) :=
  [("Subject", r.short_description),
   ("Number", r.number),
   ("Parent", r.parent),
   ("State", r.state),
   ("Assigned To", r.assigned_to),
   ("Opened By", r.opened_by),
   ("Last Update", r.sys_updated_on)]

/-- Model of `ServiceNowClient.table_map.get`. -/
def snTableMap (t : String) : Option String :=
  if t = "REQ" then some "u_simple_requests"
  else if t = "INC" then some "incident"
  else if t = "RTASK" then some "u_request_task"
  else if t = "ITASK" then some "u_incident_task"
  else none

/-- Model of `ServiceNowClient._table_from_number`: strip the digits from the
ticket number and look the remaining type up, raising `KeyError` when it is
not a known type. -/
def table_from_number (number : String) : Except PyErr String :=
  let ticketType := String.mk (number.toList.filter (fun c => !c.isDigit))
  match snTableMap ticketType with
  | none => .error .keyError
  | some table => .ok table

/-- Model of `ServiceNowClient.link`: the record URL built from the host and
the table of the ticket number. -/
def snClientLink (host number : String) : Except PyErr String :=
  match table_from_number number with
  | .error e => .error e
  | .ok table =>
    .ok (host ++ "/" ++ table ++ ".do?sysparm_table=" ++ table ++
         "&sysparm_query=number%3D" ++ number)

namespace ServiceNowBot

/-- Model of `ServiceNowBot._strlink`: `'<{link}|{label}>'`. -/
def strlink (host label : String) : Except PyErr String :=
  match snClientLink host label with
  | .error e => .error e
  | .ok link => .ok ("<" ++ link ++ "|" ++ label ++ ">")

/-- The record-field loop of `ServiceNowBot.message`: `Subject` becomes the
value (or `'No subject'` when falsy), a truthy `Parent` becomes a link line
(whose table lookup can raise `KeyError`), `Number` is skipped, and every
other truthy value becomes a `*key* value` line. -/
def recordLines (host : String) : List (String × String) → Except PyErr (List String)
  | [] => .ok []
  | (key, value) :: rest =>
    if key = "Subject" then
      match recordLines host rest with
      | .error e => .error e
      | .ok tail => .ok ((if value = "" then "No subject" else value) :: tail)
    else if key = "Parent" && value ≠ "" then
      match strlink host value with
      | .error e => .error e
      | .ok link =>
        match recordLines host rest with
        | .error e => .error e
        | .ok tail => .ok (("*" ++ key ++ "* " ++ link) :: tail)
    else if value ≠ "" && key ≠ "Number" then
      match recordLines host rest with
      | .error e => .error e
      | .ok tail => .ok (("*" ++ key ++ "* " ++ value) :: tail)
    else recordLines host rest

/-- Model of `ServiceNowBot.message`: fetch the record (`client.get`, whose
errors are not caught and propagate), build the quip-wrapped link, then the
record lines, joined by `'\n> '`.  No dedup check is made and `seen` is never
touched; only `_quip` mutates the state. -/
def message (pick : List String → Nat)
    (snGet : String → Except PyErr ServiceNowRecord)
    (b : BotState) (label : String) : Except PyErr String × BotState :=
  match snGet label with
  | .error e => (.error e, b)
  | .ok record =>
    match strlink b.host label with
    | .error e => (.error e, b)
    | .ok link =>
      match LinkBot.quip pick b link with
      | (.error e, b') => (.error e, b')
      | (.ok q, b') =>
        match recordLines b.host record.items with
        | .error e => (.error e, b')
        | .ok lines => (.ok (String.intercalate "\n> " (q :: lines)), b')

end ServiceNowBot

/-! ### The dispatcher: `get_message_processor` / `process_slack_message` -/

/-- The external collaborators of the dispatcher: the random index used by
`random.choice` (reduced modulo the pool length), the Jira lookup
`self.jira.issue` (any failure is modelled as `.error ()` since every
exception is treated alike), and the ServiceNow `client.get`. -/
structure Env where
  pick : List String → Nat
  jiraLookup : String → Except Unit JiraIssue
  snGet : String → Except PyErr ServiceNowRecord

/-- Dynamic dispatch of `bot.message(label)` over the three bot classes. -/
def botMessage (env : Env) (b : BotState) (label : String) :
    Except PyErr String × BotState :=
  match b.kind with
  | .generic => LinkBot.message env.pick b label
  | .jira => JiraLinkBot.message env.pick env.jiraLookup b label
  | .serviceNow => ServiceNowBot.message env.pick env.snGet b label

/-- An inbound Slack event, as parsed from the JSON payload.  `none` models a
missing field; `j['f']` on a missing field raises `KeyError`, `j.get('f')`
yields `None`. -/
structure SlackEvent where
  type : Option String
  bot_id : Option String
  text : Option String
  channel : Option String
deriving DecidableEq, Repr

/-- A message posted to the transport: `slack.chat.post_message(channel,
text, as_user=robo_id, parse='none')` with the state-relevant arguments. -/
structure Post where
  channel : String
  text : String
deriving DecidableEq, Repr

/-- Python truthiness of `j.get('bot_id')` (`None` or a string). -/
def truthy (o : Option String) : Bool := o.getD "" ≠ ""

/-- The inner loop of `process_slack_message` for one bot: for each match
triple, evaluate `j['channel']` (raising `KeyError` when the field is
missing — argument evaluation precedes the `bot.message` call), then
`bot.message(match[1])`; a `LinkBotSeenException` is swallowed and the loop
continues, any other exception propagates, and a successful reply is posted.
Returns the outcome, the bot's final state, and the posts made. -/
def runMatches (env : Env) (jchannel : Option String) (b : BotState) :
    List (String × String × String) → Except PyErr Unit × BotState × List Post
  | [] => (.ok (), b, [])
  | m :: rest =>
    match jchannel with
    | none => (.error .keyError, b, [])
    | some ch =>
      match botMessage env b m.2.1 with
      | (.error (.linkBotSeen _), b') => runMatches env jchannel b' rest
      | (.error e, b') => (.error e, b', [])
      | (.ok msgText, b') =>
        let out := runMatches env jchannel b' rest
        (out.1, out.2.1, ⟨ch, msgText⟩ :: out.2.2)

/-- The outer loop of `process_slack_message`: for each bot, evaluate
`j['text']` (raising `KeyError` when missing; with no bots the loop body
never runs and nothing is evaluated), run the bot over its matches, and call
`bot.reset()` after its match loop — but only when that loop did not raise:
an uncaught exception propagates immediately, skipping the reset of this bot
and all remaining bots.  Returns the outcome, all bots' final states, and
the posts made. -/
def runBots (env : Env) (jtext jchannel : Option String) :
    List BotState → Except PyErr Unit × List BotState × List Post
  | [] => (.ok (), [], [])
  | b :: rest =>
    match jtext with
    | none => (.error .keyError, b :: rest, [])
    | some text =>
      match runMatches env jchannel b (LinkBot.matchText b text) with
      | (.error e, b1, posts) => (.error e, b1 :: rest, posts)
      | (.ok _, b1, posts) =>
        let out := runBots env jtext jchannel rest
        (out.1, LinkBot.reset b1 :: out.2.1, posts ++ out.2.2)

/-- Model of `process_slack_message` on an already-parsed event: `j['type']`
(raising `KeyError` when missing); only type `"message"` is processed; a
truthy `j.get('bot_id')` returns immediately; otherwise the bots run. -/
def process_slack_message (env : Env) (bots : List BotState) (j : SlackEvent) :
    Except PyErr Unit × List BotState × List Post :=
  match j.type with
  | none => (.error .keyError, bots, [])
  | some ty =>
    if ty = "message" then
      if truthy j.bot_id then (.ok (), bots, [])
      else runBots env j.text j.channel bots
    else (.ok (), bots, [])

/-! ### Configuration: `LinkBot.__init__` and `get_message_processor` -/

/-- The class-level default `LinkBot.QUIPS` list. -/
def defaultQuips : List String :=
  ["%s",
   "linkbot noticed a link!  %s",
   "Oh, here it is... %s",
   "Maybe this, %s, will help?",
   "Click me!  %s",
   "Click my shiny metal link!  %s",
   "Here, let me link that for you... %s",
   "Couldn\x27t help but notice %s was mentioned...",
   "Not that I was eavesdropping, but did you mention %s?",
   "hmmmm, did you mean %s?",
   "%s...  Mama said there\x27d be days like this...",
   "%s?  An epic, yet approachable tale...",
   "%s?  Reminds me of a story..."]

/-- One entry of the configured `LINKBOTS` list; `none` models an absent key
(`conf.get` with its default). -/
structure BotConf where
  LINK_CLASS : Option String := none
  MATCH : Option String := none
  LINK : Option String := none
  QUIPS : Option (List String) := none
  HOST : Option String := none

/-- Model of `LinkBot.__init__` (the fields shared by all three classes):
`MATCH` interpolated into the regex (an absent key interpolates Python
`None` as the literal `"None"`), `LINK` defaulting to `'%s|%s'`, `QUIPS`
defaulting to the class list, a fresh empty `_quiplist`, an empty `_seen`. -/
def initBot (k : BotKind) (conf : BotConf) : BotState :=
  { kind := k,
    matchPat := conf.MATCH.getD "None",
    link := conf.LINK.getD "%s|%s",
    quips := conf.QUIPS.getD defaultQuips,
    quiplist := [],
    aliased := false,
    seen := [],
    host := conf.HOST.getD "" }

/-- Model of `bot_class = globals()[bot_conf.get('LINK_CLASS', 'LinkBot')]`
followed by `bot_class(bot_conf)`, restricted to the three bot classes: any
other name raises `KeyError` from the lookup. -/
def mkBot (conf : BotConf) : Except PyErr BotState :=
  match conf.LINK_CLASS.getD "LinkBot" with
  | "LinkBot" => .ok (initBot .generic conf)
  | "JiraLinkBot" => .ok (initBot .jira conf)
  | "ServiceNowBot" => .ok (initBot .serviceNow conf)
  | _ => .error .keyError

/-- Model of `get_message_processor`'s construction phase:
`getattr(linkconfig, 'LINKBOTS', [])` (a `none` argument models a config
module without the variable), build each bot, and raise
`Exception('No linkbots defined')` when the list is empty.  The returned bot
list is the state closed over by the processor. -/
def get_message_processor (linkbots : Option (List BotConf)) :
    Except PyErr (List BotState) :=
  match (linkbots.getD []).mapM mkBot with
  | .error e => .error e
  | .ok bots =>
    if bots.length = 0 then .error (.exception "No linkbots defined")
    else .ok bots

/-! ### Concrete fixtures used by the witnesses and counterexamples -/

/-- A deterministic stand-in for `random.choice`: always index 0. -/
def pick0 : List String → Nat := fun _ => 0

/-- A Jira lookup that always fails (any exception). -/
def jiraFail : String → Except Unit JiraIssue := fun _ => .error ()

/-- A ServiceNow `client.get` that always raises `KeyError` (a not-found
ticket or a non-200 response). -/
def snFail : String → Except PyErr ServiceNowRecord := fun _ => .error .keyError

/-- A concrete ServiceNow record for the INC0012345 ticket. -/
def demoRecord : ServiceNowRecord :=
  { short_description := "Printer broken",
    number := "INC0012345",
    parent := "",
    state := "Open",
    assigned_to := "",
    opened_by := "",
    sys_updated_on := "" }

/-- A ServiceNow record whose subject contains characters that HTML escaping
would have to rewrite. -/
def angleRecord : ServiceNowRecord :=
  { demoRecord with short_description := "a<b" }

/-- A ServiceNow `client.get` that succeeds with `demoRecord`. -/
def snOk : String → Except PyErr ServiceNowRecord := fun _ => .ok demoRecord

/-- A ServiceNow `client.get` that succeeds with `angleRecord`. -/
def snAngle : String → Except PyErr ServiceNowRecord := fun _ => .ok angleRecord

/-- Environment with failing external lookups. -/
def env0 : Env := { pick := pick0, jiraLookup := jiraFail, snGet := snFail }

/-- Environment whose ServiceNow lookup returns `demoRecord`. -/
def envSN : Env := { pick := pick0, jiraLookup := jiraFail, snGet := snOk }

/-- Environment whose ServiceNow lookup returns `angleRecord`. -/
def envAngle : Env := { pick := pick0, jiraLookup := jiraFail, snGet := snAngle }

/-- The configuration of the specification's scenario: pattern `"ABC-123"`,
link template `"<%s|%s>"`, empty quip set. -/
def abcConf : BotConf :=
  { MATCH := some "ABC-123", LINK := some "<%s|%s>", QUIPS := some [] }

/-- The generic responder built from `abcConf`. -/
def abcBot : BotState := initBot .generic abcConf

/-- A generic responder whose single quip template has no `%s` placeholder,
so `quip % link` raises `TypeError`. -/
def oopsBot : BotState :=
  initBot .generic { MATCH := some "ABC-123", QUIPS := some ["oops"] }

/-- A generic responder with a two-quip set, for exercising the pool. -/
def twoQuipBot : BotState :=
  initBot .generic { MATCH := some "ABC-123", QUIPS := some ["A %s", "B %s"] }

/-- A ServiceNow responder for INC tickets with an empty quip set. -/
def snBot : BotState :=
  initBot .serviceNow { LINK_CLASS := some "ServiceNowBot", MATCH := some "INC0012345",
                        QUIPS := some [], HOST := some "https://sn.example.com" }

/-- A Jira responder with an empty quip set. -/
def jiraBot : BotState :=
  initBot .jira { LINK_CLASS := some "JiraLinkBot", MATCH := some "ABC-123",
                  LINK := some "<%s|%s>", QUIPS := some [] }

/-- A well-formed message event with the given text, on channel `#chan`. -/
def msgEvent (t : String) : SlackEvent :=
  { type := some "message", bot_id := none, text := some t, channel := some "#chan" }

/-- A Jira issue fixture whose summary contains characters that HTML
escaping rewrites. -/
def demoIssue : JiraIssue :=
  { summary := "Fix <thing> & more",
    reporter := some { displayName := "Ann Lee" },
    assignee := none,
    statusName := "In Review" }

/-- A Jira lookup that succeeds with `demoIssue`. -/
def jiraOk : String → Except Unit JiraIssue := fun _ => .ok demoIssue

/-- Environment whose Jira lookup returns `demoIssue`. -/
def envJira : Env := { pick := pick0, jiraLookup := jiraOk, snGet := snFail }

/-- The reply text posted (twice) for the duplicated INC0012345 mention. -/
def snPostText : String :=
  "<https://sn.example.com/incident.do?sysparm_table=incident" ++
  "&sysparm_query=number%3DINC0012345|INC0012345>\n> Printer broken\n> *State* Open"

/-- First draw from `twoQuipBot`'s pool. -/
def draw1 : Except PyErr String × BotState := LinkBot.quip pick0 twoQuipBot "L"

/-- Second draw, continuing from the first. -/
def draw2 : Except PyErr String × BotState := LinkBot.quip pick0 draw1.2 "L"

/-- Third draw, continuing from the second: the pool was exhausted by the
first two draws. -/
def draw3 : Except PyErr String × BotState := LinkBot.quip pick0 draw2.2 "L"

/-- Written from the specification's words, not from the source, for the
escaping refinement: the per-character replacement table — `'&'` becomes
`"&amp;"`, `'<'` becomes `"&lt;"`, `'>'` becomes `"&gt;"`, and every other
character is left unchanged. -/
def specEscapeChar (c : Char) : List Char :=
  if c = '&' then "&amp;".toList
  else if c = '<' then "&lt;".toList
  else if c = '>' then "&gt;".toList
  else [c]

/-- Written from the specification's words, not from the source: HTML-escape
a text by replacing each character according to `specEscapeChar`. -/
def escapeHtmlSpec (text : String) : String :=
  String.mk (text.toList.map specEscapeChar).flatten


/-! ### Helper lemmas -/

/-- Case-insensitive character comparison is symmetric. -/
theorem ciCharEq_symm {a b : Char} (h : ciCharEq a b = true) : ciCharEq b a = true := by
  simp only [ciCharEq, beq_iff_eq] at h ⊢
  exact h.symm

theorem matchLit_ci :
    ∀ (ps cs lab rest : List Char), matchLit ps cs = some (lab, rest) →
      ciListEq lab ps = true := by
  intro ps
  induction ps with
  | nil =>
    intro cs lab rest h
    rw [matchLit] at h
    injection h with h
    injection h with h1 h2
    rw [← h1]
    rfl
  | cons p ps ih =>
    intro cs lab rest h
    cases cs with
    | nil => rw [matchLit] at h; exact absurd h (by simp)
    | cons c cs' =>
      rw [matchLit] at h
      split at h
      · next hc =>
        cases hm : matchLit ps cs' with
        | none => rw [hm] at h; exact absurd h (by simp)
        | some pr =>
          rw [hm] at h
          simp only [Option.map_some', Option.some.injEq, Prod.mk.injEq] at h
          rw [← h.1]
          simp only [ciListEq, Bool.and_eq_true]
          exact ⟨ciCharEq_symm hc, ih cs' pr.1 pr.2 (by rw [hm])⟩
      · exact absurd h (by simp)

theorem tryCore_ci (pat cs lab post rest : List Char)
    (h : tryCore pat cs = some (lab, post, rest)) : ciListEq lab pat = true := by
  unfold tryCore at h
  split at h
  · exact absurd h (by simp)
  · next lab1 r1 heq =>
    split at h
    · exact absurd h (by simp)
    · next post1 rest1 heq2 =>
      simp only [Option.some.injEq, Prod.mk.injEq] at h
      rw [← h.1]
      exact matchLit_ci pat cs lab1 r1 heq

theorem tryMatchW_ci (pat cs g1 g2 g3 rest : List Char)
    (h : tryMatchW pat cs = some ((g1, g2, g3), rest)) : ciListEq g2 pat = true := by
  unfold tryMatchW at h
  split at h
  · exact absurd h (by simp)
  · next c cs' =>
    split at h
    · exact absurd h (by simp)
    · cases hc : tryCore pat cs' with
      | none => rw [hc] at h; exact absurd h (by simp)
      | some r =>
        rw [hc] at h
        simp only [Option.map_some', Option.some.injEq, Prod.mk.injEq] at h
        rw [← h.1.2.1]
        exact tryCore_ci pat cs' r.1 r.2.1 r.2.2 (by rw [hc])

theorem tryMatchAt_ci (pat : List Char) (s : Bool) (cs g1 g2 g3 rest : List Char)
    (h : tryMatchAt pat s cs = some ((g1, g2, g3), rest)) : ciListEq g2 pat = true := by
  unfold tryMatchAt at h
  cases s with
  | false => exact tryMatchW_ci pat cs g1 g2 g3 rest (by simpa using h)
  | true =>
    simp only [if_true] at h
    split at h
    · next lab1 post1 rest1 heq =>
      simp only [Option.some.injEq, Prod.mk.injEq] at h
      rw [← h.1.2.1]
      exact tryCore_ci pat cs lab1 post1 rest1 heq
    · exact tryMatchW_ci pat cs g1 g2 g3 rest h

theorem scanAux_succ (pat : List Char) (fuel : Nat) (s : Bool) (cs : List Char) :
    scanAux pat (fuel + 1) s cs =
      match tryMatchAt pat s cs with
      | some (g, rest) =>
        if rest.length < cs.length then
          (String.mk g.1, String.mk g.2.1, String.mk g.2.2) :: scanAux pat fuel false rest
        else [(String.mk g.1, String.mk g.2.1, String.mk g.2.2)]
      | none =>
        match cs with
        | [] => []
        | _ :: cs' => scanAux pat fuel false cs' := rfl

theorem scanAux_ci (pat : List Char) :
    ∀ (fuel : Nat) (s : Bool) (cs : List Char) (pre lab post : String),
      (pre, lab, post) ∈ scanAux pat fuel s cs → ciListEq lab.toList pat = true := by
  intro fuel
  induction fuel with
  | zero => intro s cs pre lab post h; simp [scanAux] at h
  | succ fuel ih =>
    intro s cs pre lab post h
    rw [scanAux_succ] at h
    split at h
    · next g rest2 heq =>
      by_cases hlen : rest2.length < cs.length
      · rw [if_pos hlen] at h
        rcases List.mem_cons.1 h with he | hmem
        · have hlab : lab = String.mk g.2.1 := by
            have := congrArg (fun x => x.2.1) he
            simpa using this
          rw [hlab]
          exact tryMatchAt_ci pat s cs g.1 g.2.1 g.2.2 rest2 (by rw [heq])
        · exact ih false rest2 pre lab post hmem
      · rw [if_neg hlen] at h
        have he := List.mem_singleton.1 h
        have hlab : lab = String.mk g.2.1 := by
          have := congrArg (fun x => x.2.1) he
          simpa using this
        rw [hlab]
        exact tryMatchAt_ci pat s cs g.1 g.2.1 g.2.2 rest2 (by rw [heq])
    · next heq =>
      split at h
      · exact absurd h (by simp)
      · exact ih false _ pre lab post h

/-- Unfolding equation for `runMatches` on a nonempty match list. -/
theorem runMatches_cons (env : Env) (jc : Option String) (b : BotState)
    (m : String × String × String) (rest : List (String × String × String)) :
    runMatches env jc b (m :: rest) =
      match jc with
      | none => (.error .keyError, b, [])
      | some ch =>
        match botMessage env b m.2.1 with
        | (.error (.linkBotSeen _), b') => runMatches env jc b' rest
        | (.error e, b') => (.error e, b', [])
        | (.ok msgText, b') =>
          let out := runMatches env jc b' rest
          (out.1, out.2.1, ⟨ch, msgText⟩ :: out.2.2) := rfl

theorem runBots_cons_none (env : Env) (jc : Option String) (b : BotState)
    (rest : List BotState) :
    runBots env none jc (b :: rest) = (.error .keyError, b :: rest, []) := rfl

theorem runBots_cons_some (env : Env) (text : String) (jc : Option String)
    (b : BotState) (rest : List BotState) :
    runBots env (some text) jc (b :: rest) =
      match runMatches env jc b (LinkBot.matchText b text) with
      | (.error e, b1, posts) => (.error e, b1 :: rest, posts)
      | (.ok _, b1, posts) =>
        let out := runBots env (some text) jc rest
        (out.1, LinkBot.reset b1 :: out.2.1, posts ++ out.2.2) := rfl

theorem runBots_ok_seen (env : Env) (jt jc : Option String) :
    ∀ bots : List BotState, (runBots env jt jc bots).1 = .ok () →
      ∀ b ∈ (runBots env jt jc bots).2.1, b.seen = [] := by
  intro bots
  induction bots with
  | nil => intro _ b hb; simp [runBots] at hb
  | cons bot rest ih =>
    intro h b hbmem
    cases jt with
    | none => rw [runBots_cons_none] at h; simp at h
    | some text =>
      rw [runBots_cons_some] at h hbmem
      rcases hm : runMatches env jc bot (LinkBot.matchText bot text) with ⟨res, b1, posts⟩
      rw [hm] at h hbmem
      cases res with
      | error e => simp at h
      | ok u =>
        simp only at h hbmem
        rcases List.mem_cons.1 hbmem with he | hmem
        · rw [he]; rfl
        · exact ih h b hmem

/-- The character table of the source's `_escape_html` coincides with the
claim's replacement table. -/
theorem escapeChar_data (c : Char) : (LinkBot.escapeChar c).data = specEscapeChar c := by
  unfold LinkBot.escapeChar specEscapeChar
  split_ifs <;> rfl

/-- The source's `_escape_html` is exactly the claim's character-by-character
replacement. -/
theorem escape_html_eq_spec (text : String) :
    LinkBot.escape_html text = escapeHtmlSpec text := by
  unfold LinkBot.escape_html escapeHtmlSpec
  rw [String.join_eq, List.map_map]
  have h : String.data ∘ LinkBot.escapeChar = specEscapeChar := funext escapeChar_data
  rw [h]

/-! ### Claim theorems -/

/-- Claim C1 (evidence of the code bug): the ticketing-system responder does
not deduplicate.  `ServiceNowBot.message` never checks or updates `seen`
(it does not call the base `message`), so an event whose text contains the
label INC0012345 twice, each occurrence boundary-delimited and returned by
the matcher, is answered with two posts for the same label in one event
cycle — the second call does not fail with the seen exception. -/
theorem serviceNowBot_posts_twice_for_duplicate_label :
    process_slack_message envSN [snBot] (msgEvent "INC0012345, INC0012345") =
      (.ok (), [{ snBot with aliased := true }],
       [{ channel := "#chan", text := snPostText },
        { channel := "#chan", text := snPostText }]) := by decide

/-- Claim C2 (counterexample): a responder that raises an unexpected error
while producing a reply (here a `TypeError` from a quip template with no
placeholder, raised after the label was appended to `seen`) aborts the
dispatch before `bot.reset()` runs: after dispatch the responder's `seen`
set still holds the label. -/
theorem unexpected_error_skips_reset :
    (process_slack_message env0 [oopsBot] (msgEvent "see ABC-123 please")).1 =
      .error .typeError ∧
    (process_slack_message env0 [oopsBot] (msgEvent "see ABC-123 please")).2.1.map
      BotState.seen = [["ABC-123"]] := by decide

/-- Claim C2 (amended): when dispatch completes without an uncaught
exception, every responder was reset, so every responder's `seen` set is
empty afterwards (responders of ignored events keep their entry state, which
is empty by the entry hypothesis). -/
theorem dispatch_ok_resets_all_seen (env : Env) (bots : List BotState) (j : SlackEvent)
    (hentry : ∀ b ∈ bots, b.seen = [])
    (hok : (process_slack_message env bots j).1 = .ok ()) :
    ∀ b ∈ (process_slack_message env bots j).2.1, b.seen = [] := by
  intro b hb
  unfold process_slack_message at hb hok
  cases hj : j.type with
  | none => rw [hj] at hb; exact hentry b hb
  | some ty =>
    rw [hj] at hb hok
    simp only at hb hok
    by_cases hty : ty = "message"
    · rw [if_pos hty] at hb hok
      cases hbid : truthy j.bot_id with
      | true => simp only [hbid, if_true] at hb; exact hentry b hb
      | false =>
        simp only [hbid, Bool.false_eq_true, if_false] at hb hok
        exact runBots_ok_seen env j.text j.channel bots hok b hb
    · rw [if_neg hty] at hb; exact hentry b hb

/-- Claim C2 (witness): a concrete successful dispatch leaves the
responder's `seen` set empty. -/
theorem dispatch_ok_resets_all_seen_witness :
    ({ abcBot with aliased := true } : BotState).seen = [] :=
  dispatch_ok_resets_all_seen env0 [abcBot] (msgEvent "see ABC-123 please")
    (by decide) (by decide) { abcBot with aliased := true } (by decide)

/-- Claim C3 (evidence of the code bug): `_quiplist = _quips` aliases the
pool to the configured list, so `remove` empties the configured list too;
after a two-quip pool is exhausted by two draws, the third draw's "refill"
re-assigns the now-empty configured list and the draw falls back to the bare
link — the pool is never refilled with the full configured set. -/
theorem quip_pool_not_refilled_after_exhaustion :
    draw1.1 = .ok "A L" ∧ draw2.1 = .ok "B L" ∧ draw2.2.quips = [] ∧
    draw3.1 = .ok "L" ∧ draw3.2.quips = [] ∧ draw3.2.quiplist = [] := by decide

/-- Claim C4 (counterexample): for the ticketing-system responder a failed
record lookup does not degrade to the quip-wrapped link: `client.get` is not
wrapped in a `try`, so its `KeyError` propagates out of `message`, nothing
is posted for that label, and the remaining responders of the event (here a
generic responder whose pattern also occurs in the text) are skipped. -/
theorem serviceNow_lookup_failure_aborts_reply :
    ServiceNowBot.message pick0 snFail snBot "INC0012345" = (.error .keyError, snBot) ∧
    process_slack_message env0 [snBot, abcBot] (msgEvent "INC0012345 and ABC-123") =
      (.error .keyError, [snBot, abcBot], []) := by decide

/-- Claim C4 (amended): only the issue-tracker responder degrades on lookup
failure — its reply is then exactly the base (quip-wrapped link) reply —
while a ticketing-system responder propagates the lookup error out of
`message` with its state untouched. -/
theorem lookup_failure_degrades_reply_only_for_jira (env : Env) (b : BotState)
    (label : String) :
    (b.kind = .jira → env.jiraLookup label = .error () →
      botMessage env b label = LinkBot.message env.pick b label) ∧
    (∀ e : PyErr, b.kind = .serviceNow → env.snGet label = .error e →
      botMessage env b label = (.error e, b)) := by
  constructor
  · intro hk hl
    simp only [botMessage, hk]
    unfold JiraLinkBot.message
    rcases hm : LinkBot.message env.pick b label with ⟨res, b'⟩
    cases res with
    | error e => simp only
    | ok msg => simp only [hl]
  · intro e hk hl
    simp only [botMessage, hk]
    unfold ServiceNowBot.message
    rw [hl]

/-- Claim C4 (witness): concrete instances of both halves. -/
theorem lookup_failure_degrades_reply_only_for_jira_witness :
    botMessage env0 jiraBot "ABC-123" = LinkBot.message env0.pick jiraBot "ABC-123" ∧
    botMessage env0 snBot "INC0012345" = (.error .keyError, snBot) :=
  ⟨(lookup_failure_degrades_reply_only_for_jira env0 jiraBot "ABC-123").1 rfl rfl,
   (lookup_failure_degrades_reply_only_for_jira env0 snBot "INC0012345").2 .keyError rfl rfl⟩

/-- Claim C5 (counterexample): `"ABC-123 ABC-123"` contains two occurrences
of the pattern, both bounded by a text boundary or a non-word character on
each side, yet `match` returns only one label: the first match consumes the
single separating space as its group 3, and the scan resumes inside the
second occurrence. -/
theorem findall_skips_boundary_adjacent_duplicate :
    "ABC-123 ABC-123" = "ABC-123" ++ " " ++ "ABC-123" ∧
    reFindall "ABC-123" "ABC-123 ABC-123" = [("", "ABC-123", " ")] := by decide

/-- Claim C5 (amended): every label the matcher returns equals the pattern
matched case-insensitively; an occurrence embedded in a larger token yields
no label; and duplicate occurrences separated by at least two non-word
characters are each returned. -/
theorem findall_label_matches_pattern_and_boundary_cases :
    (∀ (pat text pre lab post : String), (pre, lab, post) ∈ reFindall pat text →
      ciListEq lab.toList pat.toList = true) ∧
    reFindall "ABC-123" "xABC-123y" = [] ∧
    reFindall "ABC-123" "ABC-123  ABC-123" =
      [("", "ABC-123", " "), (" ", "ABC-123", "")] := by
  refine ⟨?_, by decide, by decide⟩
  intro pat text pre lab post h
  exact scanAux_ci pat.toList _ true text.toList pre lab post h

/-- Claim C5 (witness): the label matched in a concrete message equals the
pattern case-insensitively. -/
theorem findall_label_matches_pattern_witness :
    ((" ", "ABC-123", " ") ∈ reFindall "ABC-123" "see ABC-123 please") ∧
    ciListEq "ABC-123".toList "ABC-123".toList = true :=
  ⟨by decide,
   findall_label_matches_pattern_and_boundary_cases.1 "ABC-123" "see ABC-123 please"
     " " "ABC-123" " " (by decide)⟩

/-- Claim C6: with an empty configured quip set, `message` returns the bare
link unquipped (the empty pool raises `IndexError` inside `_quip`, which is
caught); and the specification's concrete scenario posts exactly one message
`<ABC-123|ABC-123>` to the event's channel. -/
theorem empty_quip_set_returns_bare_link :
    (∀ (pick : List String → Nat) (b : BotState) (label L : String),
        label ∉ b.seen → b.quips = [] → b.quiplist = [] →
        pyFormat b.link [label, label] = .ok L →
        LinkBot.message pick b label =
          (.ok L, { b with seen := b.seen ++ [label], aliased := true })) ∧
    process_slack_message env0 [abcBot] (msgEvent "see ABC-123 please") =
      (.ok (), [{ abcBot with aliased := true }],
       [{ channel := "#chan", text := "<ABC-123|ABC-123>" }]) := by
  constructor
  · intro pick b label L hseen hq hql hfmt
    obtain ⟨kind, mp, lk, qs, qlst, al, sn, ho⟩ := b
    simp only at hseen hq hql hfmt ⊢
    subst hq
    subst hql
    unfold LinkBot.message
    rw [if_neg hseen, hfmt]
    unfold LinkBot.message_text LinkBot.quip
    rfl
  · decide

/-- Claim C6 (witness): the generic part applied to the scenario's bot. -/
theorem empty_quip_set_returns_bare_link_witness :
    LinkBot.message pick0 abcBot "ABC-123" =
      (.ok "<ABC-123|ABC-123>", { abcBot with seen := ["ABC-123"], aliased := true }) := by
  have h := empty_quip_set_returns_bare_link.1 pick0 abcBot "ABC-123" "<ABC-123|ABC-123>"
    (by decide) rfl rfl (by decide)
  exact h

/-- Claim C7 (counterexample): the ticketing-system responder inserts a
free-text field raw on a successful lookup: a subject `a<b` appears in the
reply as `a<b`, not as its HTML escape `a&lt;b` — `ServiceNowBot.message`
never calls `_escape_html`. -/
theorem serviceNow_subject_inserted_unescaped :
    (ServiceNowBot.message pick0 snAngle snBot "INC0012345").1 =
      .ok ("<https://sn.example.com/incident.do?sysparm_table=incident" ++
           "&sysparm_query=number%3DINC0012345|INC0012345>\n> a<b\n> *State* Open") ∧
    LinkBot.escape_html "a<b" = "a&lt;b" := by decide

/-- Claim C7 (amended): `_escape_html` is exactly the per-character
replacement of the claim (refinement against the specification-modelled
table), and the issue-tracker responder does append every enrichment line
escaped; only the ticketing-system responder does not escape. -/
theorem escape_html_per_char_and_only_jira_escapes :
    (∀ text : String, LinkBot.escape_html text = escapeHtmlSpec text) ∧
    (∀ (pick : List String → Nat) (lk : String → Except Unit JiraIssue)
       (b b' : BotState) (label msg : String) (issue : JiraIssue),
        lk label = .ok issue →
        LinkBot.message pick b label = (.ok msg, b') →
        JiraLinkBot.message pick lk b label =
          (.ok (String.intercalate "\n> "
            (msg :: ([issue.summary,
                      "*Reporter* " ++ get_name issue.reporter,
                      "*Assignee* " ++ get_name issue.assignee,
                      "*Status* " ++ issue.statusName].map LinkBot.escape_html))), b')) := by
  constructor
  · exact escape_html_eq_spec
  · intro pick lk b b' label msg issue hlk hmsg
    unfold JiraLinkBot.message
    rw [hmsg]
    simp only [hlk]

/-- Claim C7 (witness): the issue-tracker responder's enrichment of a
concrete issue, every line escaped. -/
theorem escape_html_per_char_and_only_jira_escapes_witness :
    JiraLinkBot.message pick0 jiraOk jiraBot "ABC-123" =
      (.ok (String.intercalate "\n> "
        ("<ABC-123|ABC-123>" ::
          ([demoIssue.summary,
            "*Reporter* " ++ get_name demoIssue.reporter,
            "*Assignee* " ++ get_name demoIssue.assignee,
            "*Status* " ++ demoIssue.statusName].map LinkBot.escape_html))),
       { jiraBot with seen := ["ABC-123"], aliased := true }) :=
  escape_html_per_char_and_only_jira_escapes.2 pick0 jiraOk jiraBot
    { jiraBot with seen := ["ABC-123"], aliased := true } "ABC-123" "<ABC-123|ABC-123>"
    demoIssue rfl (by decide)

/-- Claim C8: an event whose type field is present but not `"message"`, or a
message event with a present, non-empty `bot_id`, is ignored: nothing is
posted and every responder's state is returned unchanged. -/
theorem non_message_or_bot_events_ignored (env : Env) (bots : List BotState)
    (j : SlackEvent) (t : String) (ht : j.type = some t)
    (h : t ≠ "message" ∨ truthy j.bot_id = true) :
    process_slack_message env bots j = (.ok (), bots, []) := by
  unfold process_slack_message
  rw [ht]
  simp only
  rcases h with h | h
  · rw [if_neg h]
  · by_cases hty : t = "message"
    · rw [if_pos hty]
      simp [h]
    · rw [if_neg hty]

/-- Claim C8 (witness): a typing event is ignored, and a bot-authored
message event is ignored. -/
theorem non_message_or_bot_events_ignored_witness :
    process_slack_message env0 [abcBot]
      { type := some "user_typing", bot_id := none, text := none, channel := none } =
      (.ok (), [abcBot], []) ∧
    process_slack_message env0 [abcBot]
      { type := some "message", bot_id := some "B0FC84B", text := some "see ABC-123",
        channel := some "#chan" } =
      (.ok (), [abcBot], []) :=
  ⟨non_message_or_bot_events_ignored env0 [abcBot] _ "user_typing" rfl
     (Or.inl (by decide)),
   non_message_or_bot_events_ignored env0 [abcBot] _ "message" rfl
     (Or.inr (by decide))⟩

/-- Claim C9: a missing or empty `LINKBOTS` configuration makes the
processor construction raise `Exception('No linkbots defined')` before any
event is processed, and a successfully constructed processor always closes
over a non-empty bot list — there is no no-op processor. -/
theorem empty_linkbots_is_fatal_config_error :
    get_message_processor none = .error (.exception "No linkbots defined") ∧
    get_message_processor (some []) = .error (.exception "No linkbots defined") ∧
    ∀ (cfg : Option (List BotConf)) (bots : List BotState),
      get_message_processor cfg = .ok bots → bots ≠ [] := by
  refine ⟨rfl, rfl, ?_⟩
  intro cfg bots h
  unfold get_message_processor at h
  cases hm : (cfg.getD []).mapM mkBot with
  | error e => rw [hm] at h; simp at h
  | ok l =>
    rw [hm] at h
    simp only at h
    by_cases hl : l.length = 0
    · rw [if_pos hl] at h; simp at h
    · rw [if_neg hl] at h
      simp only [Except.ok.injEq] at h
      subst h
      exact fun hnil => hl (by rw [hnil]; rfl)

/-- Claim C9 (witness): a one-entry configuration constructs a processor
over a non-empty bot list. -/
theorem empty_linkbots_is_fatal_config_error_witness :
    get_message_processor (some [abcConf]) = .ok [abcBot] ∧ ([abcBot] : List BotState) ≠ [] :=
  ⟨by decide,
   empty_linkbots_is_fatal_config_error.2.2 (some [abcConf]) [abcBot] (by decide)⟩

/-- Claim C10 (counterexample): a message event lacking `channel` whose text
matches no responder is processed without any `KeyError`: `j['channel']` is
only evaluated inside the per-match loop body, so with zero matches the
event completes silently. -/
theorem missing_channel_without_match_is_silently_processed :
    process_slack_message env0 [abcBot]
      { type := some "message", bot_id := none, text := some "hello", channel := none } =
      (.ok (), [abcBot], []) := by decide

/-- Claim C10 (amended): a payload lacking `type` always raises `KeyError`;
a message event (no bot id, at least one responder) lacking `text` raises
`KeyError` with every responder state unchanged; a message event lacking
`channel` raises `KeyError` when the first responder's matcher produces at
least one match, again before any responder state is mutated. -/
theorem missing_fields_raise_keyerror :
    (∀ (env : Env) (bots : List BotState) (j : SlackEvent), j.type = none →
        process_slack_message env bots j = (.error .keyError, bots, [])) ∧
    (∀ (env : Env) (b : BotState) (rest : List BotState) (j : SlackEvent),
        j.type = some "message" → truthy j.bot_id = false → j.text = none →
        process_slack_message env (b :: rest) j = (.error .keyError, b :: rest, [])) ∧
    (∀ (env : Env) (b : BotState) (rest : List BotState) (j : SlackEvent) (text : String),
        j.type = some "message" → truthy j.bot_id = false → j.text = some text →
        j.channel = none → LinkBot.matchText b text ≠ [] →
        process_slack_message env (b :: rest) j = (.error .keyError, b :: rest, [])) := by
  refine ⟨?_, ?_, ?_⟩
  · intro env bots j hj
    unfold process_slack_message
    rw [hj]
  · intro env b rest j hj hb ht
    unfold process_slack_message
    rw [hj]
    simp only [if_true]
    simp only [hb, Bool.false_eq_true, if_false]
    rw [ht, runBots_cons_none]
  · intro env b rest j text hj hb ht hc hm
    unfold process_slack_message
    rw [hj]
    simp only [if_true]
    simp only [hb, Bool.false_eq_true, if_false]
    rw [ht, hc, runBots_cons_some]
    cases hmt : LinkBot.matchText b text with
    | nil => exact absurd hmt hm
    | cons m ms =>
      rw [runMatches_cons]

/-- Claim C10 (witness): concrete instances of the three missing-field
cases. -/
theorem missing_fields_raise_keyerror_witness :
    process_slack_message env0 [abcBot]
      { type := none, bot_id := none, text := some "x", channel := some "#c" } =
      (.error .keyError, [abcBot], []) ∧
    process_slack_message env0 [abcBot]
      { type := some "message", bot_id := none, text := none, channel := some "#c" } =
      (.error .keyError, [abcBot], []) ∧
    process_slack_message env0 [abcBot]
      { type := some "message", bot_id := none, text := some "see ABC-123 please",
        channel := none } =
      (.error .keyError, [abcBot], []) :=
  ⟨missing_fields_raise_keyerror.1 env0 [abcBot] _ rfl,
   missing_fields_raise_keyerror.2.1 env0 abcBot [] _ rfl rfl rfl,
   missing_fields_raise_keyerror.2.2 env0 abcBot [] _ "see ABC-123 please" rfl rfl rfl rfl
     (by decide)⟩
